import Mathlib

/-!
Shallow embedding of the Tuzla Guide backend service
(`src/Tuzla Guide on ICP/src/backend/main.mo`, Motoko actor `TuzlaGuide`).

Modeling conventions:
* Motoko `Float` is modeled by `Rat` (exact rational arithmetic).
* Motoko `Principal` is modeled by `String`; `Principal.fromActor(this)` is the
  `self` parameter threaded through every operation, while the remote caller's
  identity is the (unused, exactly as in the source) `caller` parameter.
* `Time.now()` is modeled by an explicit `now : Nat` argument (nanoseconds).
* `Trie.Trie<K, V>` is modeled by an association list `List (K × V)`;
  `Trie.put` replaces the binding of an existing key in place and otherwise
  appends, `Trie.get` finds the binding, `Trie.iter` is list traversal.
* Mutating operations return a pair of the Motoko result and the post-call
  state, mirroring each `return` point of the imperative source, so that a
  failing path visibly returns the unmodified state.
-/

namespace TuzlaGuide

/-- `type Location` of main.mo (latitude/longitude floats, as rationals). -/
structure Location where
  latitude : Rat
  longitude : Rat
deriving DecidableEq

/-- `type Attraction` of main.mo. -/
structure Attraction where
  id : Nat
  name : String
  description : String
  location : Location
  category : String
  imageUrl : String
  audioUrl : String
  rating : Rat
  price : Nat
  languages : List String
  tags : List String
  createdAt : Nat
  updatedAt : Nat
deriving DecidableEq

/-- `type Review` of main.mo. -/
structure Review where
  id : Nat
  attractionId : Nat
  userId : String
  rating : Nat
  comment : String
  photos : List String
  createdAt : Nat
deriving DecidableEq

/-- `type UserProfile` of main.mo. -/
structure UserProfile where
  id : String
  username : String
  email : String
  preferredLanguage : String
  visitedAttractions : List Nat
  favoriteAttractions : List Nat
  totalSpent : Nat
  createdAt : Nat
deriving DecidableEq

/-- `type PaymentTransaction` of main.mo. -/
structure PaymentTransaction where
  id : String
  userId : String
  attractionId : Nat
  amount : Nat
  currency : String
  paymentMethod : String
  status : String
  qrCodeData : String
  createdAt : Nat
deriving DecidableEq

/-- The actor's mutable state: the four `Trie` stores and the two counters
(main.mo lines 79-85). -/
structure State where
  attractions : List (Nat × Attraction)
  reviews : List (Nat × Review)
  users : List (String × UserProfile)
  payments : List (String × PaymentTransaction)
  nextAttractionId : Nat
  nextReviewId : Nat
deriving DecidableEq

/-- `Trie.get`: the value bound to `key`, if any. -/
def trieGet {κ ν : Type} [DecidableEq κ] (t : List (κ × ν)) (key : κ) : Option ν :=
  (t.find? (fun p => decide (p.1 = key))).map Prod.snd

/-- `Trie.put ... .0`: replace the binding of `key` in place if present,
otherwise add it. -/
def triePut {κ ν : Type} [DecidableEq κ] (t : List (κ × ν)) (key : κ) (val : ν) :
    List (κ × ν) :=
  if t.any (fun p => decide (p.1 = key)) then
    t.map (fun p => if p.1 = key then (key, val) else p)
  else
    t ++ [(key, val)]

/-- Number of bindings a store holds for a given key. -/
def countKey {κ ν : Type} [DecidableEq κ] (t : List (κ × ν)) (key : κ) : Nat :=
  (t.filter (fun p => decide (p.1 = key))).length

/-- `Text.contains(s, #text pat)` on character lists: `pat` occurs contiguously
inside `l`. -/
def isSubstr (pat : List Char) : List Char → Bool
  | [] => pat.isEmpty
  | c :: rest => pat.isPrefixOf (c :: rest) || isSubstr pat rest

/-- Motoko `Text.contains(s, #text pat)`. -/
def textContains (s pat : String) : Bool :=
  isSubstr pat.data s.data

/-- Motoko `Text.toLowerCase`: character-wise lowercasing. -/
def textToLower (s : String) : String :=
  ⟨s.data.map Char.toLower⟩

/-- Specification-level substring predicate: `pat` is a contiguous substring
of `s`. -/
def IsSubstrOf (pat s : String) : Prop :=
  ∃ l r, s.data = l ++ pat.data ++ r

/-- The per-attraction filter of `searchAttractions` (main.mo lines 203-237):
the `matches` flag after all three checks. -/
def matchesSearch (query : String) (category language : Option String)
    (a : Attraction) : Bool :=
  let lowerQuery := textToLower query
  (textContains (textToLower a.name) lowerQuery ||
   textContains (textToLower a.description) lowerQuery ||
   a.tags.any (fun tag => textContains (textToLower tag) lowerQuery)) &&
  (match category with
   | some cat => decide (a.category = cat)
   | none => true) &&
  (match language with
   | some lang => a.languages.any (fun l => decide (l = lang))
   | none => true)

/-- `searchAttractions` (main.mo lines 199-240).  The Motoko loop pushes each
match onto a list, so the result is the matching entries in reverse iteration
order. -/
def searchAttractions (query : String) (category language : Option String)
    (s : State) : List Attraction :=
  (((s.attractions.filter (fun p => matchesSearch query category language p.2)).map
      Prod.snd).reverse)

/-- `getReviewsInternal` (main.mo lines 386-394): all reviews whose
`attractionId` matches, pushed onto a list in iteration order. -/
def getReviewsInternal (s : State) (attractionId : Nat) : List Review :=
  (((s.reviews.filter (fun p => decide (p.2.attractionId = attractionId))).map
      Prod.snd).reverse)

/-- `addReview` (main.mo lines 254-298).  `self` is `Principal.fromActor(this)`;
`caller` is the remote caller's identity, which the source never consults. -/
def addReview (self caller : String) (now : Nat) (attractionId rating : Nat)
    (comment : String) (photos : List String) (s : State) :
    Except String Nat × State :=
  let userId := self
  if rating < 1 ∨ rating > 5 then
    (Except.error "Rating must be between 1 and 5", s)
  else
    match trieGet s.attractions attractionId with
    | none => (Except.error "Attraction not found", s)
    | some attraction =>
      let reviewId := s.nextReviewId
      let review : Review :=
        { id := reviewId, attractionId := attractionId, userId := userId,
          rating := rating, comment := comment, photos := photos,
          createdAt := now }
      let s1 : State :=
        { s with nextReviewId := s.nextReviewId + 1,
                 reviews := triePut s.reviews reviewId review }
      let allReviews := getReviewsInternal s1 attractionId
      let totalRating : Nat := allReviews.foldl (fun acc r => acc + r.rating) 0
      let newRating : Rat := (totalRating : Rat) / (allReviews.length : Rat)
      let updatedAttraction : Attraction :=
        { attraction with rating := newRating, updatedAt := now }
      let s2 : State :=
        { s1 with attractions := triePut s1.attractions attractionId updatedAttraction }
      (Except.ok reviewId, s2)

/-- `generatePaymentId` (main.mo lines 396-400): both the "timestamp" and the
"random" part are read from the same clock. -/
def generatePaymentId (now : Nat) : String :=
  "tx_" ++ (toString now ++ toString (now % 10000))

/-- `generateQRCodeData` (main.mo lines 402-410).  The `description` local is
computed from the attraction name but, as in the source, never used in the
returned payload. -/
def generateQRCodeData (attractionName : String) (amount : Nat)
    (currency : String) : String :=
  let _description := "Tuzla Guide - " ++ attractionName
  let amountText := toString amount
  "nowpayments:" ++ (amountText ++ ("-" ++ currency))

/-- `createPayment` (main.mo lines 301-332). -/
def createPayment (self caller : String) (now : Nat) (attractionId amount : Nat)
    (currency paymentMethod : String) (s : State) :
    Except String PaymentTransaction × State :=
  let userId := self
  match trieGet s.attractions attractionId with
  | none => (Except.error "Attraction not found", s)
  | some attraction =>
    let paymentId := generatePaymentId now
    let qrCodeData := generateQRCodeData attraction.name amount currency
    let payment : PaymentTransaction :=
      { id := paymentId, userId := userId, attractionId := attractionId,
        amount := amount, currency := currency, paymentMethod := paymentMethod,
        status := "pending", qrCodeData := qrCodeData, createdAt := now }
    (Except.ok payment, { s with payments := triePut s.payments paymentId payment })

/-- `updatePaymentStatus` (main.mo lines 335-346). -/
def updatePaymentStatus (paymentId status : String) (s : State) :
    Except String Unit × State :=
  match trieGet s.payments paymentId with
  | none => (Except.error "Payment not found", s)
  | some payment =>
    let updatedPayment : PaymentTransaction := { payment with status := status }
    (Except.ok (), { s with payments := triePut s.payments paymentId updatedPayment })

/-- `updateUserProfile` (main.mo lines 355-383): never fails, upserts the
caller-identity key (which the source computes as the service's own identity). -/
def updateUserProfile (self caller : String) (now : Nat)
    (username email preferredLanguage : String) (s : State) : State :=
  let userId := self
  let profile : UserProfile :=
    match trieGet s.users userId with
    | none =>
      { id := userId, username := username, email := email,
        preferredLanguage := preferredLanguage, visitedAttractions := [],
        favoriteAttractions := [], totalSpent := 0, createdAt := now }
    | some existing =>
      { existing with username := username, email := email,
                      preferredLanguage := preferredLanguage }
  { s with users := triePut s.users userId profile }

/-- The five seed attractions of `initSampleData` (main.mo lines 88-165);
`Time.now()` at seeding time is the `now` argument. -/
def sampleAttractions (now : Nat) : List Attraction :=
  [ { id := 0, name := "Panonsko Jezero",
      description := "The famous salt lake in the heart of Tuzla, perfect for swimming and relaxation.",
      location := { latitude := 44.5387, longitude := 18.6766 },
      category := "natural",
      imageUrl := "/images/panonsko-jezero.jpg",
      audioUrl := "/audio/panonsko-jezero-guide.mp3",
      rating := 4.8, price := 500,
      languages := ["en", "bs", "de"],
      tags := ["lake", "swimming", "salt-water", "family"],
      createdAt := now, updatedAt := now },
    { id := 1, name := "Gradska Tržnica Tuzla",
      description := "Historic city market offering local produce and traditional crafts.",
      location := { latitude := 44.5417, longitude := 18.6739 },
      category := "historical",
      imageUrl := "/images/trznica.jpg",
      audioUrl := "/audio/trznica-guide.mp3",
      rating := 4.5, price := 0,
      languages := ["en", "bs", "de", "hr"],
      tags := ["market", "shopping", "local", "historical"],
      createdAt := now, updatedAt := now },
    { id := 2, name := "Muzej Soli Tuzla",
      description := "Salt Museum showcasing Tuzla's rich salt mining history.",
      location := { latitude := 44.54, longitude := 18.675 },
      category := "museum",
      imageUrl := "/images/muzej-soli.jpg",
      audioUrl := "/audio/muzej-soli-guide.mp3",
      rating := 4.7, price := 300,
      languages := ["en", "bs", "de", "hr", "sr"],
      tags := ["museum", "history", "salt", "educational"],
      createdAt := now, updatedAt := now },
    { id := 3, name := "Kapija Graduša",
      description := "Historic gate and cultural landmark in the old town.",
      location := { latitude := 44.542, longitude := 18.672 },
      category := "historical",
      imageUrl := "/images/kapija-gradusa.jpg",
      audioUrl := "/audio/kapija-gradusa-guide.mp3",
      rating := 4.3, price := 0,
      languages := ["en", "bs", "de"],
      tags := ["historical", "gate", "architecture", "photo-spot"],
      createdAt := now, updatedAt := now },
    { id := 4, name := "Restoran Dvorište",
      description := "Traditional Bosnian restaurant with authentic local cuisine.",
      location := { latitude := 44.5395, longitude := 18.6745 },
      category := "restaurant",
      imageUrl := "/images/dvoriste.jpg",
      audioUrl := "/audio/dvoriste-guide.mp3",
      rating := 4.6, price := 2500,
      languages := ["en", "bs", "de", "hr"],
      tags := ["restaurant", "traditional", "bosnian", "dining"],
      createdAt := now, updatedAt := now } ]

/-- `initSampleData` (main.mo lines 88-171): puts each sample attraction into
the store and bumps `nextAttractionId` once per sample. -/
def initSampleData (now : Nat) (s : State) : State :=
  (sampleAttractions now).foldl
    (fun st a =>
      { st with attractions := triePut st.attractions a.id a,
                nextAttractionId := st.nextAttractionId + 1 })
    s

/-- The initial values of the actor's variable declarations
(main.mo lines 79-85): all stores empty, both counters zero. -/
def emptyState : State :=
  { attractions := [], reviews := [], users := [], payments := [],
    nextAttractionId := 0, nextReviewId := 0 }

/-- `system func preupgrade` (main.mo lines 173-175): only a debug print; it
saves nothing, so it is the identity on the model state. -/
def preupgrade (s : State) : State := s

/-- Replacing the process image.  None of the actor's state variables is
declared `stable`, so the new image starts from the declarations' initial
values; whatever the old image held is discarded. -/
def replaceProcessImage (_s : State) : State := emptyState

/-- `system func postupgrade` (main.mo lines 177-180): re-runs
`initSampleData()`. -/
def postupgrade (now : Nat) (s : State) : State := initSampleData now s

/-- A controlled restart (upgrade) cycle as the claim describes it: preupgrade
hook, process-image replacement, postupgrade hook. -/
def upgradeCycle (now : Nat) (s : State) : State :=
  postupgrade now (replaceProcessImage (preupgrade s))

/-- First-ever deployment (main.mo lines 413-416): the actor starts from the
declarations' initial values and runs `initSampleData()`. -/
def initialDeploy (now : Nat) : State := initSampleData now emptyState

/-- A one-attraction store used for concrete witnesses. -/
def demoAttraction : Attraction :=
  { id := 0, name := "Salt Lake", description := "a lake",
    location := { latitude := 44, longitude := 18 },
    category := "natural", imageUrl := "i", audioUrl := "a",
    rating := 4, price := 500, languages := ["en"], tags := ["lake"],
    createdAt := 0, updatedAt := 0 }

/-- A small concrete state holding `demoAttraction` and nothing else. -/
def demoState : State :=
  { attractions := [(0, demoAttraction)], reviews := [], users := [],
    payments := [], nextAttractionId := 1, nextReviewId := 0 }

/-- A concrete stored review used for the restart counterexample. -/
def demoReview : Review :=
  { id := 0, attractionId := 0, userId := "svc", rating := 5,
    comment := "great", photos := [], createdAt := 50 }

/-- A concrete payment used for witnesses. -/
def demoPayment : PaymentTransaction :=
  { id := "tx_77", userId := "svc", attractionId := 0, amount := 500,
    currency := "EUR", paymentMethod := "ICP", status := "pending",
    qrCodeData := "nowpayments:500-EUR", createdAt := 77 }

/-! ### Helper lemmas -/

theorem isPrefixOf_eq_true_iff {p l : List Char} :
    p.isPrefixOf l = true ↔ ∃ t, l = p ++ t := by
  induction p generalizing l with
  | nil => simp [List.isPrefixOf]
  | cons a p ih =>
    cases l with
    | nil => simp [List.isPrefixOf]
    | cons b l =>
      simp only [List.isPrefixOf, Bool.and_eq_true, beq_iff_eq, ih,
        List.cons_append, List.cons.injEq]
      constructor
      · rintro ⟨rfl, t, rfl⟩
        exact ⟨t, rfl, rfl⟩
      · rintro ⟨t, rfl, rfl⟩
        exact ⟨rfl, t, rfl⟩

theorem isSubstr_iff {pat l : List Char} :
    isSubstr pat l = true ↔ ∃ a b, l = a ++ pat ++ b := by
  induction l with
  | nil =>
    cases pat with
    | nil =>
      constructor
      · intro _
        exact ⟨[], [], rfl⟩
      · intro _
        rfl
    | cons c p =>
      simp only [isSubstr, List.isEmpty, Bool.false_eq_true, false_iff]
      rintro ⟨a, b, h⟩
      exact absurd h.symm (by simp)
  | cons c rest ih =>
    simp only [isSubstr, Bool.or_eq_true, isPrefixOf_eq_true_iff, ih]
    constructor
    · rintro (⟨t, ht⟩ | ⟨a, b, rfl⟩)
      · exact ⟨[], t, by simpa using ht⟩
      · exact ⟨c :: a, b, rfl⟩
    · rintro ⟨a, b, h⟩
      cases a with
      | nil => exact Or.inl ⟨b, by simpa using h⟩
      | cons x a =>
        rw [List.cons_append, List.cons_append, List.cons.injEq] at h
        exact Or.inr ⟨a, b, h.2⟩

theorem textContains_iff {s pat : String} :
    textContains s pat = true ↔ IsSubstrOf pat s := by
  simp only [textContains, IsSubstrOf, isSubstr_iff, List.append_assoc]

section TrieLemmas

variable {κ ν : Type} [DecidableEq κ]

theorem find?_map_replace {t : List (κ × ν)} {k : κ} {v : ν}
    (h : t.any (fun p => decide (p.1 = k)) = true) :
    (t.map (fun p => if p.1 = k then (k, v) else p)).find?
      (fun p => decide (p.1 = k)) = some (k, v) := by
  induction t with
  | nil => simp at h
  | cons p t ih =>
    by_cases hp : p.1 = k
    · simp [List.find?, hp]
    · simp only [List.any_cons, Bool.or_eq_true, decide_eq_true_eq] at h
      rcases h with h | h
      · exact absurd h hp
      · simp only [List.map_cons, if_neg hp, List.find?]
        rw [decide_eq_false hp]
        exact ih h

theorem find?_append_single {t : List (κ × ν)} {k : κ} {v : ν}
    (h : t.any (fun p => decide (p.1 = k)) = false) :
    (t ++ [(k, v)]).find? (fun p => decide (p.1 = k)) = some (k, v) := by
  induction t with
  | nil => simp [List.find?]
  | cons p t ih =>
    simp only [List.any_cons, Bool.or_eq_false_iff, decide_eq_false_iff_not] at h
    simp only [List.cons_append, List.find?]
    rw [decide_eq_false h.1]
    exact ih (by simpa using h.2)

theorem trieGet_triePut_self (t : List (κ × ν)) (k : κ) (v : ν) :
    trieGet (triePut t k v) k = some v := by
  unfold triePut
  by_cases h : t.any (fun p => decide (p.1 = k)) = true
  · rw [if_pos h, trieGet, find?_map_replace h]
    rfl
  · rw [if_neg h, trieGet, find?_append_single (Bool.eq_false_iff.mpr h)]
    rfl

theorem find?_map_replace_ne {t : List (κ × ν)} {k k' : κ} {v : ν}
    (hne : k' ≠ k) :
    (t.map (fun p => if p.1 = k then (k, v) else p)).find?
      (fun p => decide (p.1 = k')) = t.find? (fun p => decide (p.1 = k')) := by
  induction t with
  | nil => rfl
  | cons p t ih =>
    by_cases hp : p.1 = k
    · simp only [List.map_cons, if_pos hp, List.find?]
      rw [decide_eq_false (Ne.symm hne), decide_eq_false (by rw [hp]; exact fun hh => hne hh.symm)]
      exact ih
    · simp only [List.map_cons, if_neg hp, List.find?]
      by_cases hp' : p.1 = k'
      · rw [decide_eq_true hp']
      · rw [decide_eq_false hp']
        exact ih

theorem trieGet_triePut_ne (t : List (κ × ν)) {k k' : κ} (v : ν) (hne : k' ≠ k) :
    trieGet (triePut t k v) k' = trieGet t k' := by
  unfold triePut trieGet
  by_cases h : t.any (fun p => decide (p.1 = k)) = true
  · rw [if_pos h, find?_map_replace_ne hne]
  · rw [if_neg h, List.find?_append]
    have : List.find? (fun p => decide (p.1 = k')) [(k, v)] = none := by
      simp [List.find?, decide_eq_false (Ne.symm hne)]
    rw [this]
    cases t.find? (fun p => decide (p.1 = k')) <;> rfl

theorem mem_triePut_self (t : List (κ × ν)) (k : κ) (v : ν) :
    (k, v) ∈ triePut t k v := by
  have h := trieGet_triePut_self t k v
  unfold trieGet at h
  rcases ho : (triePut t k v).find? (fun p => decide (p.1 = k)) with _ | p
  · rw [ho] at h; simp at h
  · rw [ho] at h
    have hm := List.mem_of_find?_eq_some ho
    have hpred := List.find?_some ho
    simp only [decide_eq_true_eq] at hpred
    have : p.2 = v := by simpa using h
    have hpv : p = (k, v) := by
      cases p
      simp_all
    rw [hpv] at hm
    exact hm

theorem countKey_eq_zero_of_none {t : List (κ × ν)} {k : κ}
    (h : trieGet t k = none) : countKey t k = 0 := by
  unfold trieGet at h
  rcases ho : t.find? (fun p => decide (p.1 = k)) with _ | p
  · unfold countKey
    rw [List.length_eq_zero, List.filter_eq_nil_iff]
    intro a ha
    have := List.find?_eq_none.mp ho a ha
    simpa using this
  · rw [ho] at h; simp at h

theorem any_eq_false_of_none {t : List (κ × ν)} {k : κ}
    (h : trieGet t k = none) : t.any (fun p => decide (p.1 = k)) = false := by
  unfold trieGet at h
  rcases ho : t.find? (fun p => decide (p.1 = k)) with _ | p
  · rw [Bool.eq_false_iff]
    intro hany
    rcases List.any_eq_true.mp hany with ⟨a, ha, hpa⟩
    have := List.find?_eq_none.mp ho a ha
    exact absurd hpa (by simpa using this)
  · rw [ho] at h; simp at h

theorem countKey_triePut_fresh {t : List (κ × ν)} {k : κ} (v : ν)
    (h : trieGet t k = none) : countKey (triePut t k v) k = 1 := by
  unfold triePut
  rw [any_eq_false_of_none h, if_neg (by simp), countKey, List.filter_append]
  have h0 : countKey t k = 0 := countKey_eq_zero_of_none h
  unfold countKey at h0
  rw [List.length_eq_zero] at h0
  rw [h0]
  simp

theorem countKey_map_replace (t : List (κ × ν)) (k : κ) (v : ν) :
    countKey (t.map (fun p => if p.1 = k then (k, v) else p)) k = countKey t k := by
  induction t with
  | nil => rfl
  | cons p t ih =>
    by_cases hp : p.1 = k
    · unfold countKey at ih ⊢
      rw [List.map_cons, if_pos hp, List.filter_cons, List.filter_cons]
      have h1 : (decide (((k, v) : κ × ν).1 = k)) = true := by simp
      have h2 : (decide (p.1 = k)) = true := by simp [hp]
      rw [h1, h2]
      simp [ih]
    · unfold countKey at ih ⊢
      simp only [List.map_cons, if_neg hp, List.filter_cons]
      rw [decide_eq_false hp]
      exact ih

theorem countKey_triePut_existing {t : List (κ × ν)} {k : κ} (v : ν)
    (h : t.any (fun p => decide (p.1 = k)) = true) :
    countKey (triePut t k v) k = countKey t k := by
  unfold triePut
  rw [if_pos h]
  exact countKey_map_replace t k v

end TrieLemmas

theorem foldl_add_rating (l : List Review) (n : Nat) :
    l.foldl (fun acc r => acc + r.rating) n = n + (l.map (fun r => r.rating)).sum := by
  induction l generalizing n with
  | nil => simp
  | cons r t ih => simp [List.foldl, ih, Nat.add_assoc]

theorem generateQRCodeData_ne_empty (name : String) (amount : Nat)
    (currency : String) : generateQRCodeData name amount currency ≠ "" := by
  intro h
  have hd := congrArg String.data h
  rw [generateQRCodeData] at hd
  simp only [String.data_append] at hd
  simp at hd

theorem any_eq_true_of_get_some {κ ν : Type} [DecidableEq κ]
    {t : List (κ × ν)} {k : κ} {v : ν} (h : trieGet t k = some v) :
    t.any (fun p => decide (p.1 = k)) = true := by
  unfold trieGet at h
  rcases ho : t.find? (fun q => decide (q.1 = k)) with _ | q
  · rw [ho] at h; simp at h
  · have hm := List.mem_of_find?_eq_some ho
    have hq := List.find?_some ho
    exact List.any_eq_true.mpr ⟨q, hm, hq⟩

/-- A demo state that also holds a stored payment, for concrete witnesses. -/
def demoStateP : State := { demoState with payments := [("tx_77", demoPayment)] }

/-! ### Claim theorems -/

/-- C6: for a stored payment id, `updatePaymentStatus` succeeds, overwrites
exactly the `status` field of that transaction with the supplied string (no
transition-legality check), leaves every other field of the transaction, every
other payment, and every other store and counter unchanged; for an unknown id
it fails with NotFoundError and changes nothing. -/
theorem updatePaymentStatus_spec (s : State) (paymentId status : String) :
    (∀ p, trieGet s.payments paymentId = some p →
      (updatePaymentStatus paymentId status s).1 = Except.ok () ∧
      trieGet (updatePaymentStatus paymentId status s).2.payments paymentId =
        some { p with status := status } ∧
      (∀ q, trieGet (updatePaymentStatus paymentId status s).2.payments paymentId =
          some q →
        q.status = status ∧ q.id = p.id ∧ q.userId = p.userId ∧
        q.attractionId = p.attractionId ∧ q.amount = p.amount ∧
        q.currency = p.currency ∧ q.paymentMethod = p.paymentMethod ∧
        q.qrCodeData = p.qrCodeData ∧ q.createdAt = p.createdAt) ∧
      (∀ pid, pid ≠ paymentId →
        trieGet (updatePaymentStatus paymentId status s).2.payments pid =
          trieGet s.payments pid) ∧
      (updatePaymentStatus paymentId status s).2.attractions = s.attractions ∧
      (updatePaymentStatus paymentId status s).2.reviews = s.reviews ∧
      (updatePaymentStatus paymentId status s).2.users = s.users ∧
      (updatePaymentStatus paymentId status s).2.nextAttractionId = s.nextAttractionId ∧
      (updatePaymentStatus paymentId status s).2.nextReviewId = s.nextReviewId) ∧
    (trieGet s.payments paymentId = none →
      updatePaymentStatus paymentId status s = (Except.error "Payment not found", s)) := by
  constructor
  · intro p hp
    simp only [updatePaymentStatus, hp]
    refine ⟨by trivial, trieGet_triePut_self _ _ _, ?_, ?_, by trivial, by trivial,
      by trivial, by trivial, by trivial⟩
    · intro q hq
      rw [trieGet_triePut_self] at hq
      cases hq
      exact ⟨rfl, rfl, rfl, rfl, rfl, rfl, rfl, rfl, rfl⟩
    · intro pid hne
      exact trieGet_triePut_ne _ _ hne
  · intro hnone
    simp only [updatePaymentStatus, hnone]

/-- Witness for C6 at a concrete stored payment. -/
theorem updatePaymentStatus_spec_witness :
    (updatePaymentStatus "tx_77" "completed" demoStateP).1 = Except.ok () ∧
    trieGet (updatePaymentStatus "tx_77" "completed" demoStateP).2.payments "tx_77" =
      some { demoPayment with status := "completed" } ∧
    (updatePaymentStatus "tx_77" "completed" demoStateP).2.attractions =
      demoStateP.attractions := by
  have h := (updatePaymentStatus_spec demoStateP "tx_77" "completed").1 demoPayment rfl
  exact ⟨h.1, h.2.1, h.2.2.2.2.1⟩

/-- C5: `updateUserProfile` always succeeds; with no existing profile it
creates one with the supplied fields, empty visited/favorite sets, zero spend
and `createdAt = now`; with an existing profile it overwrites only
username/email/preferredLanguage; two successive calls leave exactly one
profile for the identity, with the second username and the first call's
`createdAt`. -/
theorem updateUserProfile_spec (self caller₁ caller₂ : String) (now₁ now₂ : Nat)
    (u₁ e₁ l₁ u₂ e₂ l₂ : String) (s : State) :
    (trieGet s.users self = none →
      trieGet (updateUserProfile self caller₁ now₁ u₁ e₁ l₁ s).users self =
        some { id := self, username := u₁, email := e₁, preferredLanguage := l₁,
               visitedAttractions := [], favoriteAttractions := [],
               totalSpent := 0, createdAt := now₁ }) ∧
    (∀ ex, trieGet s.users self = some ex →
      trieGet (updateUserProfile self caller₁ now₁ u₁ e₁ l₁ s).users self =
        some { ex with username := u₁, email := e₁, preferredLanguage := l₁ }) ∧
    (trieGet s.users self = none →
      trieGet (updateUserProfile self caller₂ now₂ u₂ e₂ l₂
          (updateUserProfile self caller₁ now₁ u₁ e₁ l₁ s)).users self =
        some { id := self, username := u₂, email := e₂, preferredLanguage := l₂,
               visitedAttractions := [], favoriteAttractions := [],
               totalSpent := 0, createdAt := now₁ } ∧
      countKey (updateUserProfile self caller₂ now₂ u₂ e₂ l₂
          (updateUserProfile self caller₁ now₁ u₁ e₁ l₁ s)).users self = 1) := by
  refine ⟨?_, ?_, ?_⟩
  · intro h
    simp only [updateUserProfile, h]
    exact trieGet_triePut_self _ _ _
  · intro ex h
    simp only [updateUserProfile, h]
    exact trieGet_triePut_self _ _ _
  · intro h
    set s₁ := updateUserProfile self caller₁ now₁ u₁ e₁ l₁ s with hs₁
    have h1 : trieGet s₁.users self =
        some { id := self, username := u₁, email := e₁, preferredLanguage := l₁,
               visitedAttractions := [], favoriteAttractions := [],
               totalSpent := 0, createdAt := now₁ } := by
      rw [hs₁]
      simp only [updateUserProfile, h]
      exact trieGet_triePut_self _ _ _
    have hc1 : countKey s₁.users self = 1 := by
      rw [hs₁]
      simp only [updateUserProfile, h]
      apply countKey_triePut_fresh
      exact h
    constructor
    · simp only [updateUserProfile, h1]
      exact trieGet_triePut_self _ _ _
    · simp only [updateUserProfile, h1]
      rw [countKey_triePut_existing _ (any_eq_true_of_get_some h1)]
      exact hc1

/-- Witness for C5: two profile updates on the demo state (which stores no
profiles). -/
theorem updateUserProfile_spec_witness :
    trieGet (updateUserProfile "svc" "bob" 20 "u2" "e2" "de"
        (updateUserProfile "svc" "alice" 10 "u1" "e1" "en" demoState)).users "svc" =
      some { id := "svc", username := "u2", email := "e2", preferredLanguage := "de",
             visitedAttractions := [], favoriteAttractions := [],
             totalSpent := 0, createdAt := 10 } ∧
    countKey (updateUserProfile "svc" "bob" 20 "u2" "e2" "de"
        (updateUserProfile "svc" "alice" 10 "u1" "e1" "en" demoState)).users "svc" = 1 :=
  (updateUserProfile_spec "svc" "alice" "bob" 10 20
    "u1" "e1" "en" "u2" "e2" "de" demoState).2.2 rfl

/-- C7: a successful `createPayment` returns a transaction with status
"pending", argument-equal amount/currency/method/attractionId, and a non-empty
payment-instruction payload computed deterministically (as a function) from
the attraction's name, the amount and the currency. -/
theorem createPayment_spec (self caller : String) (now : Nat)
    (attractionId amount : Nat) (currency paymentMethod : String) (s : State)
    (att : Attraction) (h : trieGet s.attractions attractionId = some att) :
    ∃ tx, (createPayment self caller now attractionId amount currency paymentMethod s).1 =
        Except.ok tx ∧
      tx.status = "pending" ∧ tx.amount = amount ∧ tx.currency = currency ∧
      tx.paymentMethod = paymentMethod ∧ tx.attractionId = attractionId ∧
      tx.qrCodeData = generateQRCodeData att.name amount currency ∧
      tx.qrCodeData ≠ "" ∧
      (∀ n₁ a₁ c₁ n₂ a₂ c₂, n₁ = n₂ → a₁ = a₂ → c₁ = c₂ →
        generateQRCodeData n₁ a₁ c₁ = generateQRCodeData n₂ a₂ c₂) := by
  simp only [createPayment, h]
  refine ⟨_, rfl, rfl, rfl, rfl, rfl, rfl, rfl,
    generateQRCodeData_ne_empty att.name amount currency, ?_⟩
  intro n₁ a₁ c₁ n₂ a₂ c₂ hn ha hc
  rw [hn, ha, hc]

/-- Witness for C7 on the demo state. -/
theorem createPayment_spec_witness :
    ∃ tx, (createPayment "svc" "alice" 77 0 500 "EUR" "ICP" demoState).1 =
        Except.ok tx ∧
      tx.status = "pending" ∧ tx.amount = 500 ∧ tx.currency = "EUR" ∧
      tx.paymentMethod = "ICP" ∧ tx.attractionId = 0 ∧
      tx.qrCodeData = generateQRCodeData demoAttraction.name 500 "EUR" ∧
      tx.qrCodeData ≠ "" ∧
      (∀ n₁ a₁ c₁ n₂ a₂ c₂, n₁ = n₂ → a₁ = a₂ → c₁ = c₂ →
        generateQRCodeData n₁ a₁ c₁ = generateQRCodeData n₂ a₂ c₂) :=
  createPayment_spec "svc" "alice" 77 0 500 "EUR" "ICP" demoState demoAttraction rfl

/-- The review record a successful `addReview` call builds. -/
def newReview (self : String) (now attractionId rating : Nat) (comment : String)
    (photos : List String) (s : State) : Review :=
  { id := s.nextReviewId, attractionId := attractionId, userId := self,
    rating := rating, comment := comment, photos := photos, createdAt := now }

/-- The intermediate state of `addReview` right after the review is stored and
the counter bumped, before the attraction's rating is recomputed. -/
def postReviewState (self : String) (now attractionId rating : Nat)
    (comment : String) (photos : List String) (s : State) : State :=
  { s with
    nextReviewId := s.nextReviewId + 1,
    reviews := triePut s.reviews s.nextReviewId
      (newReview self now attractionId rating comment photos s) }

theorem addReview_ok_elim {self caller : String} {now attractionId rating : Nat}
    {comment : String} {photos : List String} {s : State} {rid : Nat} {s' : State}
    (h : addReview self caller now attractionId rating comment photos s =
      (Except.ok rid, s')) :
    1 ≤ rating ∧ rating ≤ 5 ∧ rid = s.nextReviewId ∧
    ∃ att, trieGet s.attractions attractionId = some att ∧
      s' = { postReviewState self now attractionId rating comment photos s with
        attractions := triePut s.attractions attractionId
          { att with
            rating :=
              (((getReviewsInternal
                  (postReviewState self now attractionId rating comment photos s)
                  attractionId).foldl (fun acc r => acc + r.rating) 0 : Nat) : Rat) /
              ((getReviewsInternal
                  (postReviewState self now attractionId rating comment photos s)
                  attractionId).length : Rat),
            updatedAt := now } } := by
  by_cases hr : rating < 1 ∨ rating > 5
  · simp only [addReview, if_pos hr] at h
    exact absurd (congrArg Prod.fst h) (by simp)
  · rcases ha : trieGet s.attractions attractionId with _ | att
    · simp only [addReview, if_neg hr, ha] at h
      exact absurd (congrArg Prod.fst h) (by simp)
    · simp only [addReview, if_neg hr, ha] at h
      have h1 := congrArg Prod.fst h
      have h2 := congrArg Prod.snd h
      simp only at h1 h2
      have hrid : rid = s.nextReviewId := by
        cases h1
        rfl
      push_neg at hr
      refine ⟨hr.1, hr.2, hrid, att, rfl, ?_⟩
      rw [← h2]
      rfl

/-- C2: every successful `addReview` assigns and returns the current
`nextReviewId`, stores the review, bumps the counter, and rewrites the owning
attraction's rating to the arithmetic mean of the integer ratings of all
stored reviews whose `attractionId` matches (the new one included),
refreshing `updatedAt`.  Quantifying over every pre-state makes this hold
after every add of any review sequence on an attraction. -/
theorem addReview_spec (self caller : String) (now : Nat)
    (attractionId rating : Nat) (comment : String) (photos : List String)
    (s : State) (rid : Nat) (s' : State)
    (h : addReview self caller now attractionId rating comment photos s =
      (Except.ok rid, s')) :
    rid = s.nextReviewId ∧
    trieGet s'.reviews rid = some
      { id := rid, attractionId := attractionId, userId := self, rating := rating,
        comment := comment, photos := photos, createdAt := now } ∧
    s'.nextReviewId = s.nextReviewId + 1 ∧
    ∃ att, trieGet s'.attractions attractionId = some att ∧
      att.rating =
        (((s'.reviews.filter (fun p => decide (p.2.attractionId = attractionId))).map
            (fun p => (p.2.rating : Rat))).sum) /
        (((s'.reviews.filter
            (fun p => decide (p.2.attractionId = attractionId))).length : Rat)) ∧
      att.updatedAt = now := by
  obtain ⟨hlo, hhi, hrid, att, ha, hs'⟩ := addReview_ok_elim h
  subst hrid
  subst hs'
  refine ⟨rfl, ?_, rfl, ?_⟩
  · exact trieGet_triePut_self _ _ _
  · refine ⟨_, trieGet_triePut_self _ _ _, ?_, rfl⟩
    simp only [getReviewsInternal, postReviewState, foldl_add_rating, Nat.zero_add,
      List.map_reverse, List.sum_reverse, List.map_map, List.length_reverse,
      List.length_map, Nat.cast_list_sum, Function.comp]
    rfl

/-- Witness for C2: one concrete review on the demo attraction. -/
theorem addReview_spec_witness :
    0 = demoState.nextReviewId ∧
    trieGet (addReview "svc" "alice" 9 0 5 "nice" [] demoState).2.reviews 0 = some
      { id := 0, attractionId := 0, userId := "svc", rating := 5,
        comment := "nice", photos := [], createdAt := 9 } ∧
    (addReview "svc" "alice" 9 0 5 "nice" [] demoState).2.nextReviewId =
      demoState.nextReviewId + 1 ∧
    ∃ att, trieGet (addReview "svc" "alice" 9 0 5 "nice" [] demoState).2.attractions 0 =
        some att ∧
      att.rating =
        ((((addReview "svc" "alice" 9 0 5 "nice" [] demoState).2.reviews.filter
            (fun p => decide (p.2.attractionId = 0))).map
            (fun p => (p.2.rating : Rat))).sum) /
        ((((addReview "svc" "alice" 9 0 5 "nice" [] demoState).2.reviews.filter
            (fun p => decide (p.2.attractionId = 0))).length : Rat)) ∧
      att.updatedAt = 9 :=
  addReview_spec "svc" "alice" 9 0 5 "nice" [] demoState 0
    (addReview "svc" "alice" 9 0 5 "nice" [] demoState).2 rfl

/-- C10: in every successful `addReview` call the list of reviews gathered for
the rating recomputation contains at least the review just inserted, so the
mean's denominator is nonzero. -/
theorem reviewDenominator_spec (self caller : String) (now : Nat)
    (attractionId rating : Nat) (comment : String) (photos : List String)
    (s : State) (rid : Nat) (s' : State)
    (h : addReview self caller now attractionId rating comment photos s =
      (Except.ok rid, s')) :
    (∃ r, (rid, r) ∈ s'.reviews ∧ r.attractionId = attractionId) ∧
    getReviewsInternal s' attractionId ≠ [] ∧
    0 < (getReviewsInternal s' attractionId).length := by
  obtain ⟨hlo, hhi, hrid, att, ha, hs'⟩ := addReview_ok_elim h
  subst hrid
  subst hs'
  have hmem : (s.nextReviewId,
      newReview self now attractionId rating comment photos s) ∈
      triePut s.reviews s.nextReviewId
        (newReview self now attractionId rating comment photos s) :=
    mem_triePut_self _ _ _
  have hmem2 : newReview self now attractionId rating comment photos s ∈
      getReviewsInternal
        (postReviewState self now attractionId rating comment photos s)
        attractionId := by
    unfold getReviewsInternal postReviewState
    rw [List.mem_reverse]
    refine List.mem_map.mpr ⟨(s.nextReviewId,
      newReview self now attractionId rating comment photos s), ?_, rfl⟩
    exact List.mem_filter.mpr ⟨hmem, by simp [newReview]⟩
  refine ⟨⟨newReview self now attractionId rating comment photos s, hmem, rfl⟩,
    List.ne_nil_of_mem hmem2, List.length_pos.mpr (List.ne_nil_of_mem hmem2)⟩

/-- Witness for C10 at a concrete successful call. -/
theorem reviewDenominator_spec_witness :
    (∃ r, (0, r) ∈ (addReview "svc" "bob" 11 0 4 "ok" [] demoState).2.reviews ∧
      r.attractionId = 0) ∧
    getReviewsInternal (addReview "svc" "bob" 11 0 4 "ok" [] demoState).2 0 ≠ [] ∧
    0 < (getReviewsInternal (addReview "svc" "bob" 11 0 4 "ok" [] demoState).2 0).length :=
  reviewDenominator_spec "svc" "bob" 11 0 4 "ok" [] demoState 0
    (addReview "svc" "bob" 11 0 4 "ok" [] demoState).2 rfl

/-- C9: the identity recorded by the mutating operations is the service's own
(`Principal.fromActor(this)`), not the remote caller's: the operations'
results and recorded userId values are independent of the caller argument,
and the recorded value is always `self`. -/
theorem callerIdentity_spec (self c₁ c₂ : String) (now : Nat) (s : State)
    (attractionId rating : Nat) (comment : String) (photos : List String)
    (amount : Nat) (currency method username email lang : String) :
    addReview self c₁ now attractionId rating comment photos s =
      addReview self c₂ now attractionId rating comment photos s ∧
    createPayment self c₁ now attractionId amount currency method s =
      createPayment self c₂ now attractionId amount currency method s ∧
    updateUserProfile self c₁ now username email lang s =
      updateUserProfile self c₂ now username email lang s ∧
    (∀ rid s', addReview self c₁ now attractionId rating comment photos s =
        (Except.ok rid, s') →
      ∃ r, trieGet s'.reviews rid = some r ∧ r.userId = self) ∧
    (∀ tx s', createPayment self c₁ now attractionId amount currency method s =
        (Except.ok tx, s') → tx.userId = self) ∧
    (∃ p, trieGet (updateUserProfile self c₁ now username email lang s).users self =
      some p ∧ p.id = self ∨
      trieGet s.users self = some p ∧
      trieGet (updateUserProfile self c₁ now username email lang s).users self =
        some { p with username := username, email := email,
                      preferredLanguage := lang }) := by
  refine ⟨rfl, rfl, rfl, ?_, ?_, ?_⟩
  · intro rid s' h
    obtain ⟨_, _, hrid, att, ha, hs'⟩ := addReview_ok_elim h
    subst hrid
    subst hs'
    exact ⟨_, trieGet_triePut_self _ _ _, rfl⟩
  · intro tx s' h
    rcases ha : trieGet s.attractions attractionId with _ | att
    · simp only [createPayment, ha] at h
      exact absurd (congrArg Prod.fst h) (by simp)
    · simp only [createPayment, ha] at h
      have h1 := congrArg Prod.fst h
      simp only at h1
      cases h1
      rfl
  · rcases hu : trieGet s.users self with _ | q
    · refine ⟨{ id := self, username := username, email := email,
                preferredLanguage := lang, visitedAttractions := [],
                favoriteAttractions := [], totalSpent := 0, createdAt := now },
        Or.inl ⟨?_, rfl⟩⟩
      simp only [updateUserProfile, hu]
      exact trieGet_triePut_self _ _ _
    · refine ⟨q, Or.inr ⟨rfl, ?_⟩⟩
      simp only [updateUserProfile, hu]
      exact trieGet_triePut_self _ _ _

/-- Witness for C9: two different callers on the demo state. -/
theorem callerIdentity_spec_witness :
    addReview "svc" "alice" 9 0 5 "g" [] demoState =
      addReview "svc" "bob" 9 0 5 "g" [] demoState ∧
    (∃ r, trieGet (addReview "svc" "alice" 9 0 5 "g" [] demoState).2.reviews 0 =
      some r ∧ r.userId = "svc") := by
  have h := callerIdentity_spec "svc" "alice" "bob" 9 demoState 0 5 "g" [] 100
    "EUR" "ICP" "u" "e" "en"
  exact ⟨h.1, h.2.2.2.1 0 (addReview "svc" "alice" 9 0 5 "g" [] demoState).2 rfl⟩

/-- C3: `addReview` yields ValidationError exactly when the rating is outside
[1,5] (this check precedes the existence check), `addReview` (given a valid
rating) and `createPayment` yield NotFoundError exactly when the attraction id
is not stored, and every failing call returns the pre-state unchanged. -/
theorem failure_spec (self caller : String) (now : Nat) (attractionId rating : Nat)
    (comment : String) (photos : List String) (amount : Nat)
    (currency method : String) (s : State) :
    ((addReview self caller now attractionId rating comment photos s).1 =
        Except.error "Rating must be between 1 and 5" ↔ rating < 1 ∨ rating > 5) ∧
    ((addReview self caller now attractionId rating comment photos s).1 =
        Except.error "Attraction not found" ↔
      (1 ≤ rating ∧ rating ≤ 5 ∧ trieGet s.attractions attractionId = none)) ∧
    ((createPayment self caller now attractionId amount currency method s).1 =
        Except.error "Attraction not found" ↔
      trieGet s.attractions attractionId = none) ∧
    (∀ msg, (addReview self caller now attractionId rating comment photos s).1 =
        Except.error msg →
      (addReview self caller now attractionId rating comment photos s).2 = s) ∧
    (∀ msg, (createPayment self caller now attractionId amount currency method s).1 =
        Except.error msg →
      (createPayment self caller now attractionId amount currency method s).2 = s) := by
  have hmsg : ("Rating must be between 1 and 5" : String) ≠ "Attraction not found" := by
    decide
  by_cases hr : rating < 1 ∨ rating > 5
  · rcases ha : trieGet s.attractions attractionId with _ | att
    · refine ⟨?_, ?_, ?_, ?_, ?_⟩
      · simp only [addReview, if_pos hr]
        simp
        omega
      · simp only [addReview, if_pos hr]
        constructor
        · intro hh
          exact absurd (Except.error.inj hh) hmsg
        · intro hh
          obtain ⟨h1, h2, _⟩ := hh
          rcases hr with hr | hr <;> omega
      · simp [createPayment, ha]
      · intro msg _
        unfold addReview
        rw [if_pos hr]
      · intro msg _
        simp [createPayment, ha]
    · refine ⟨?_, ?_, ?_, ?_, ?_⟩
      · simp only [addReview, if_pos hr]
        simp
        omega
      · simp only [addReview, if_pos hr]
        constructor
        · intro hh
          exact absurd (Except.error.inj hh) hmsg
        · intro hh
          obtain ⟨h1, h2, _⟩ := hh
          rcases hr with hr | hr <;> omega
      · simp [createPayment, ha]
      · intro msg _
        unfold addReview
        rw [if_pos hr]
      · intro msg hmsgeq
        simp [createPayment, ha] at hmsgeq
  · have hr1 : 1 ≤ rating := by omega
    have hr2 : rating ≤ 5 := by omega
    rcases ha : trieGet s.attractions attractionId with _ | att
    · refine ⟨?_, ?_, ?_, ?_, ?_⟩
      · simp only [addReview, if_neg hr, ha]
        constructor
        · intro hh
          exact absurd (Except.error.inj hh).symm hmsg
        · intro hh
          exact absurd hh hr
      · simp only [addReview, if_neg hr, ha]
        simp [hr1, hr2]
      · simp [createPayment, ha]
      · intro msg _
        unfold addReview
        rw [if_neg hr, ha]
      · intro msg _
        simp [createPayment, ha]
    · refine ⟨?_, ?_, ?_, ?_, ?_⟩
      · simp only [addReview, if_neg hr, ha]
        simp
        omega
      · simp only [addReview, if_neg hr, ha]
        simp
      · simp [createPayment, ha]
      · intro msg hmsgeq
        unfold addReview at hmsgeq
        rw [if_neg hr, ha] at hmsgeq
        simp at hmsgeq
      · intro msg hmsgeq
        simp [createPayment, ha] at hmsgeq

/-- Witness for C3: rating 6 is rejected, a missing attraction id is rejected,
and both failing calls leave the demo state unchanged. -/
theorem failure_spec_witness :
    ((addReview "svc" "alice" 9 0 6 "g" [] demoState).1 =
      Except.error "Rating must be between 1 and 5") ∧
    (addReview "svc" "alice" 9 0 6 "g" [] demoState).2 = demoState ∧
    ((createPayment "svc" "alice" 9 42 100 "EUR" "ICP" demoState).1 =
      Except.error "Attraction not found") ∧
    (createPayment "svc" "alice" 9 42 100 "EUR" "ICP" demoState).2 = demoState := by
  have h1 := failure_spec "svc" "alice" 9 0 6 "g" [] 100 "EUR" "ICP" demoState
  have h2 := failure_spec "svc" "alice" 9 42 6 "g" [] 100 "EUR" "ICP" demoState
  have e1 : (addReview "svc" "alice" 9 0 6 "g" [] demoState).1 =
      Except.error "Rating must be between 1 and 5" := h1.1.mpr (by omega)
  have e2 : (createPayment "svc" "alice" 9 42 100 "EUR" "ICP" demoState).1 =
      Except.error "Attraction not found" := h2.2.2.1.mpr rfl
  exact ⟨e1, h1.2.2.2.1 _ e1, e2, h2.2.2.2.2 _ e2⟩

/-- The per-attraction match condition of the C4 claim, stated at the
specification level. -/
theorem matchesSearch_eq_true_iff {query : String} {category language : Option String}
    {a : Attraction} :
    matchesSearch query category language a = true ↔
      (IsSubstrOf (textToLower query) (textToLower a.name) ∨
       IsSubstrOf (textToLower query) (textToLower a.description) ∨
       ∃ tag ∈ a.tags, IsSubstrOf (textToLower query) (textToLower tag)) ∧
      (∀ cat, category = some cat → a.category = cat) ∧
      (∀ lang, language = some lang → lang ∈ a.languages) := by
  unfold matchesSearch
  cases category <;> cases language <;>
    simp [Bool.and_eq_true, Bool.or_eq_true, textContains_iff, List.any_eq_true] <;>
    tauto

/-- C4: `searchAttractions` returns exactly the stored attractions passing all
supplied filters: the lowercased query is a substring of the lowercased name,
description, or some lowercased tag (an empty query passes this criterion for
every attraction), a supplied category must match exactly, and a supplied
language must be among the attraction's languages. -/
theorem searchAttractions_spec (query : String) (category language : Option String)
    (s : State) (a : Attraction) :
    (a ∈ searchAttractions query category language s ↔
      (∃ id, (id, a) ∈ s.attractions) ∧
      (IsSubstrOf (textToLower query) (textToLower a.name) ∨
       IsSubstrOf (textToLower query) (textToLower a.description) ∨
       ∃ tag ∈ a.tags, IsSubstrOf (textToLower query) (textToLower tag)) ∧
      (∀ cat, category = some cat → a.category = cat) ∧
      (∀ lang, language = some lang → lang ∈ a.languages)) ∧
    (query = "" →
      (IsSubstrOf (textToLower query) (textToLower a.name) ∨
       IsSubstrOf (textToLower query) (textToLower a.description) ∨
       ∃ tag ∈ a.tags, IsSubstrOf (textToLower query) (textToLower tag))) := by
  constructor
  · rw [searchAttractions, List.mem_reverse, List.mem_map]
    constructor
    · rintro ⟨p, hp, rfl⟩
      rw [List.mem_filter] at hp
      have hm := matchesSearch_eq_true_iff.mp hp.2
      exact ⟨⟨p.1, hp.1⟩, hm.1, hm.2.1, hm.2.2⟩
    · rintro ⟨⟨id, hid⟩, h1, h2, h3⟩
      exact ⟨(id, a), List.mem_filter.mpr
        ⟨hid, matchesSearch_eq_true_iff.mpr ⟨h1, h2, h3⟩⟩, rfl⟩
  · intro hq
    subst hq
    left
    exact ⟨[], (textToLower a.name).data, rfl⟩

/-- Witness for C4: the case-insensitive query "LAKE" finds the demo
attraction through its "lake" tag. -/
theorem searchAttractions_spec_witness :
    demoAttraction ∈ searchAttractions "LAKE" none none demoState ∧
    (IsSubstrOf (textToLower "") (textToLower demoAttraction.name) ∨
     IsSubstrOf (textToLower "") (textToLower demoAttraction.description) ∨
     ∃ tag ∈ demoAttraction.tags, IsSubstrOf (textToLower "") (textToLower tag)) := by
  constructor
  · apply (searchAttractions_spec "LAKE" none none demoState demoAttraction).1.mpr
    refine ⟨⟨0, ?_⟩, Or.inr (Or.inr ⟨"lake", ?_, ⟨[], [], ?_⟩⟩), ?_, ?_⟩
    · simp [demoState]
    · simp [demoAttraction]
    · decide
    · intro cat hcat
      cases hcat
    · intro lang hlang
      cases hlang
  · exact (searchAttractions_spec "" none none demoState demoAttraction).2 rfl

/-- A reachable state with one stored user review, as it stands right before
an upgrade. -/
def reviewedDemoState : State :=
  { demoState with reviews := [(0, demoReview)], nextReviewId := 1 }

/-- C1 (code defect): the upgrade cycle does not preserve the stores.  The
actor declares no `stable` variables, `preupgrade` only prints, and
`postupgrade` re-runs `initSampleData()`, so a controlled restart discards
every stored review (and user, payment, counter) and re-seeds the catalog:
the state after the cycle differs from the state before it. -/
theorem upgradeCycle_not_identity :
    (upgradeCycle 200 reviewedDemoState).reviews = [] ∧
    reviewedDemoState.reviews ≠ [] ∧
    (upgradeCycle 200 reviewedDemoState).nextReviewId = 0 ∧
    reviewedDemoState.nextReviewId = 1 ∧
    (upgradeCycle 200 reviewedDemoState).attractions.length = 5 ∧
    reviewedDemoState.attractions.length = 1 ∧
    upgradeCycle 200 reviewedDemoState ≠ reviewedDemoState := by
  refine ⟨rfl, by simp [reviewedDemoState, demoState], rfl, rfl, rfl, rfl, ?_⟩
  intro hEq
  have h := congrArg State.nextReviewId hEq
  simp [upgradeCycle, postupgrade, initSampleData, sampleAttractions,
    replaceProcessImage, preupgrade, emptyState, reviewedDemoState, demoState] at h

/-- C8 (code defect): `generatePaymentId` is a function of the clock alone,
so two `createPayment` calls at the same timestamp produce the same
transaction id and the second `Trie.put` silently replaces the first stored
transaction instead of adding a new one. -/
theorem paymentId_collision :
    generatePaymentId 777 = "tx_777777" ∧
    (createPayment "svc" "alice" 777 0 100 "EUR" "ICP" demoState).2.payments.length = 1 ∧
    (createPayment "svc" "bob" 777 0 200 "USD" "ckbtc"
        (createPayment "svc" "alice" 777 0 100 "EUR" "ICP" demoState).2).2.payments.length = 1 ∧
    trieGet (createPayment "svc" "bob" 777 0 200 "USD" "ckbtc"
        (createPayment "svc" "alice" 777 0 100 "EUR" "ICP" demoState).2).2.payments
        (generatePaymentId 777) =
      some { id := "tx_777777", userId := "svc", attractionId := 0, amount := 200,
             currency := "USD", paymentMethod := "ckbtc", status := "pending",
             qrCodeData := "nowpayments:200-USD", createdAt := 777 } := by
  refine ⟨by decide, rfl, rfl, by decide⟩

end TuzlaGuide
